import Mathlib

/-!
# Verification of the GymAiMentor core against its specification

This file gives a shallow embedding, in Lean 4, of the parts of the
GymAiMentor repository that the frozen claims are about:

* `app/weights.py`  — the deterministic load-recommendation estimator
  (`round_to_step`, `estimate_1rm`, `weight_for_reps_from_1rm`,
  `equipment_step`, `base_key`, `recommend_weight_for_exercise`);
* `app/agent.py`    — the output sanitizer `_strip_rpe` and the retry loops
  of `FitnessAgent.get_answer` / `FitnessAgent.get_response`;
* `app/storage.py`  — the record schema (`DEFAULT_USER_DATA`,
  `_ensure_structure`, `save_user_data` / `load_user_data`);
* `bot/telegram_bot.py` — the message handler `handle_message`, in
  particular its survey state machine;
* `main.py`         — the extra `last_program_text` key written by
  `program_cmd` before saving.

Modelling conventions, used throughout:

* Python `float` values are modelled as exact rationals (`ℚ`); Python `int`
  as `ℤ`.  `round` is Python 3's banker's rounding (half to even).
* Python strings are Lean `String`s / `List Char`; the regex character class
  `\s` and `str.strip()` are modelled over the ASCII whitespace characters,
  and `\d` over the ASCII digits, which cover every character the program's
  own patterns and data use.
* Python `None`-able values are `Option`s; Python dictionaries are
  association lists in insertion order (Python 3.7+ dicts preserve insertion
  order), with first-match lookup — keys are unique in every dict the
  program builds, so the two agree.
* Fallible operations return `Option`/`Except`; the external network call of
  the GigaChat SDK is abstracted as a function from attempt number to an
  outcome (success text or an error kind).
-/

/-! ## Basic character and string helpers (Python string semantics) -/

/-- Python's whitespace class (`\s`, `str.strip`) restricted to ASCII. -/
def pyIsSpace (c : Char) : Bool :=
  c = ' ' || c = '\t' || c = '\n' || c = '\r' || c = '\x0b' || c = '\x0c'

/-- Python's `\d` restricted to ASCII digits. -/
def pyIsDigit (c : Char) : Bool := '0' ≤ c && c ≤ '9'

/-- `str.lower()` for the characters this program manipulates: ASCII letters
and the Cyrillic block (А–Я → а–я, Ё → ё); all other characters unchanged. -/
def pyLowerChar (c : Char) : Char :=
  if 'A' ≤ c ∧ c ≤ 'Z' then Char.ofNat (c.toNat + 32)
  else if 0x410 ≤ c.toNat ∧ c.toNat ≤ 0x42F then Char.ofNat (c.toNat + 0x20)
  else if c.toNat = 0x401 then Char.ofNat 0x451
  else c

/-- `str.lower()` on a whole string. -/
def pyLowerStr (s : String) : String := String.mk (s.data.map pyLowerChar)

/-- `str.strip()` on a character list (ASCII whitespace model). -/
def pyStrip (s : List Char) : List Char :=
  ((s.dropWhile pyIsSpace).reverse.dropWhile pyIsSpace).reverse

/-- `str.strip()` on a `String`. -/
def pyStripStr (s : String) : String := String.mk (pyStrip s.data)

/-- Does the second list start with the first one? -/
def listStartsWith : List Char → List Char → Bool
  | [], _ => true
  | _ :: _, [] => false
  | p :: ps, c :: cs => p = c && listStartsWith ps cs

/-- Python's substring test `pat in s` on character lists. -/
def listContainsSub (p : List Char) : List Char → Bool
  | [] => listStartsWith p []
  | c :: cs => listStartsWith p (c :: cs) || listContainsSub p cs

/-- Python's substring test `pat in s` on strings. -/
def containsSub (pat s : String) : Bool := listContainsSub pat.data s.data

/-- Python's `s.startswith((p₁, …, pₙ))`. -/
def startsWithAny (s : String) (ps : List String) : Bool :=
  ps.any (fun p => listStartsWith p.data s.data)

/-- First-match association-list lookup: Python `d.get(k)` (dict keys are
unique, so first match is the match). -/
def alookup {α : Type} (k : String) : List (String × α) → Option α
  | [] => none
  | (k', v) :: rest => if k' = k then some v else alookup k rest

/-! ## `app/weights.py` — the load estimator -/

/-- `COEFFS_BW`: per-movement body-weight coefficients `(novice, experienced)`. -/
def COEFFS_BW : List (String × (ℚ × ℚ)) :=
  [("squat", (0.55, 0.75)), ("deadlift", (0.65, 0.90)), ("bench", (0.40, 0.65)),
   ("ohp", (0.25, 0.40)), ("row", (0.35, 0.55)), ("lat_pulldown", (0.25, 0.40)),
   ("leg_curl", (0.20, 0.30)), ("leg_press", (0.90, 1.30))]

/-- `ALIAS`: ordered phrase-in-name → movement-key table. -/
def ALIAS : List (String × String) :=
  [("присед", "squat"), ("приседания", "squat"), ("фронтальные приседания", "squat"),
   ("станов", "deadlift"),
   ("жим штанги лёжа", "bench"), ("жим лёжа", "bench"),
   ("жим стоя", "ohp"), ("жим гантелей стоя", "ohp"),
   ("тяга штанги", "row"), ("в наклон", "row"),
   ("верхн", "lat_pulldown"), ("широким хватом", "lat_pulldown"),
   ("сгибани", "leg_curl"),
   ("жим ногами", "leg_press")]

def PLATE_STEP : ℚ := 2.5
def DB_STEP : ℚ := 1.0
def MACHINE_STEP : ℚ := 2.5

/-- Python 3 `round` on a rational: nearest integer, ties to even. -/
def pyRound (q : ℚ) : ℤ :=
  if q - ⌊q⌋ < 1/2 then ⌊q⌋
  else if 1/2 < q - ⌊q⌋ then ⌊q⌋ + 1
  else if ⌊q⌋ % 2 = 0 then ⌊q⌋ else ⌊q⌋ + 1

/-- `round_to_step(x, step)` from `app/weights.py`. -/
def round_to_step (x step : ℚ) : ℚ :=
  if step ≤ 0 then x
  else max step ((pyRound (x / step) : ℚ) * step)

/-- `_level_idx(level)` from `app/weights.py` (`0` novice, `1` experienced). -/
def _level_idx (level : Option String) : ℕ :=
  match level with
  | none => 0
  | some s =>
    if s = "" then 0
    else if startsWithAny (pyLowerStr s) ["опыт", "interm", "adv"] then 1 else 0

/-- `_gender_corr(gender)` from `app/weights.py`. -/
def _gender_corr (gender : Option String) : ℚ :=
  match gender with
  | none => 1
  | some s =>
    if s = "" then 1
    else if startsWithAny (pyLowerStr s) ["ж", "f", "w"] then 0.8 else 1

/-- `_age_corr(age)` from `app/weights.py` (`not age` also catches `0`). -/
def _age_corr (age : Option ℤ) : ℚ :=
  match age with
  | none => 1
  | some a =>
    if a = 0 then 1
    else if 60 ≤ a then 0.90
    else if 40 ≤ a then 0.95
    else 1

/-- `_goal_corr(goal)` from `app/weights.py`. -/
def _goal_corr (goal : Option String) : ℚ :=
  match goal with
  | none => 1
  | some s =>
    if s = "" then 1
    else if containsSub "похуд" (pyLowerStr s) then 0.95
    else if containsSub "мас" (pyLowerStr s) then 1.05
    else 1

/-- `estimate_1rm(weight, reps)`: the Epley relation. -/
def estimate_1rm (weight : ℚ) (reps : ℤ) : ℚ := weight * (1 + (reps : ℚ) / 30)

/-- `weight_for_reps_from_1rm(one_rm, target_reps)`. -/
def weight_for_reps_from_1rm (one_rm : ℚ) (target_reps : ℤ) : ℚ :=
  let pct : ℚ :=
    if 10 ≤ target_reps then 0.675
    else if 7 ≤ target_reps then 0.75
    else 0.85
  one_rm * pct

/-- The `User` dataclass of `app/weights.py`. -/
structure WUser where
  gender : Option String
  age : Option ℤ
  height_cm : Option ℚ
  weight_kg : Option ℚ
  level : Option String
  target : Option String

/-- The `History` dataclass of `app/weights.py`. -/
structure WHistory where
  last_weight : Option ℚ
  reps : Option ℤ
  rir : Option ℤ

/-- `equipment_step(ex_name)` from `app/weights.py` (the local `name` variable
is inlined as `pyLowerStr ex_name`). -/
def equipment_step (ex_name : String) : ℚ :=
  if containsSub "гантел" (pyLowerStr ex_name) then DB_STEP
  else if containsSub "блок" (pyLowerStr ex_name) || containsSub "тренаж" (pyLowerStr ex_name)
      || containsSub "кросс" (pyLowerStr ex_name) then
    MACHINE_STEP
  else PLATE_STEP

/-- `base_key(ex_name)` from `app/weights.py`: first alias whose phrase occurs
in the lowercased name. -/
def base_key (ex_name : String) : Option String :=
  aliasScan ALIAS (pyLowerStr ex_name)
where
  aliasScan : List (String × String) → String → Option String
    | [], _ => none
    | (k, v) :: rest, n => if containsSub k n then some v else aliasScan rest n

/-- `COEFFS_BW.get(key, (0.3, 0.5))`. -/
def coeffsGet (k : String) : ℚ × ℚ := (alookup k COEFFS_BW).getD (0.3, 0.5)

/-- `recommend_weight_for_exercise` from `app/weights.py`.  Python truthiness:
`history and history.last_weight and history.reps` requires both fields
present and nonzero; `user.weight_kg or 0` maps `None` to `0`; `if key and
bw` requires a non-`None`, non-empty key and a nonzero body weight.  The
`try/except` around the history branch cannot fire in this arithmetic model
(no exceptions arise), matching the Python arithmetic on the same inputs. -/
def recommend_weight_for_exercise (exercise_name : String) (user : WUser)
    (target_reps : ℤ) (history : Option WHistory) : ℚ × String :=
  let step := equipment_step exercise_name
  let anthro : ℚ × String :=
    let key := base_key exercise_name
    let bw : ℚ := (user.weight_kg).getD 0
    let w0 : ℚ :=
      match key with
      | some k =>
        if k ≠ "" ∧ bw ≠ 0 then
          bw * (if _level_idx user.level ≠ 0 then (coeffsGet k).2 else (coeffsGet k).1)
        else
          (if bw ≠ 0 then bw else 60) *
            (if containsSub "гантел" (pyLowerStr exercise_name) then 0.25 else 0.4)
      | none =>
        (if bw ≠ 0 then bw else 60) *
          (if containsSub "гантел" (pyLowerStr exercise_name) then 0.25 else 0.4)
    let w1 := w0 * _gender_corr user.gender
    let w2 := w1 * _age_corr user.age
    let w3 := w2 * _goal_corr user.target
    (round_to_step w3 step, "старт по антропометрии")
  match history with
  | some h =>
    match h.last_weight, h.reps with
    | some lw, some rp =>
      if lw ≠ 0 ∧ rp ≠ 0 then
        let one_rm := estimate_1rm lw rp
        let w := weight_for_reps_from_1rm one_rm target_reps
        (round_to_step w step, "по истории (1RM)")
      else anthro
    | _, _ => anthro
  | none => anthro

/-! ### Rounding lemmas -/

theorem pyRound_le (q : ℚ) : (pyRound q : ℚ) ≤ q + 1/2 := by
  have h0 : (⌊q⌋ : ℚ) ≤ q := Int.floor_le q
  have h1 : q < (⌊q⌋ : ℚ) + 1 := Int.lt_floor_add_one q
  unfold pyRound
  split_ifs with hf hg he
  · linarith
  · push_cast; linarith
  · linarith
  · push_cast; linarith

theorem le_pyRound (q : ℚ) : q - 1/2 ≤ (pyRound q : ℚ) := by
  have h0 : (⌊q⌋ : ℚ) ≤ q := Int.floor_le q
  have h1 : q < (⌊q⌋ : ℚ) + 1 := Int.lt_floor_add_one q
  unfold pyRound
  split_ifs with hf hg he
  · linarith
  · push_cast; linarith
  · linarith
  · push_cast; linarith

theorem pyRound_mono {q₁ q₂ : ℚ} (h : q₁ ≤ q₂) : pyRound q₁ ≤ pyRound q₂ := by
  by_contra hlt
  push_neg at hlt
  have hint : pyRound q₂ + 1 ≤ pyRound q₁ := hlt
  have c1 : (pyRound q₁ : ℚ) ≤ q₁ + 1/2 := pyRound_le q₁
  have c2 : q₂ - 1/2 ≤ (pyRound q₂ : ℚ) := le_pyRound q₂
  have hcast : (pyRound q₂ : ℚ) + 1 ≤ (pyRound q₁ : ℚ) := by exact_mod_cast hint
  have hq : q₁ = q₂ := by linarith
  subst hq
  omega

theorem round_to_step_ge_step {s : ℚ} (x : ℚ) (hs : 0 < s) : s ≤ round_to_step x s := by
  unfold round_to_step
  rw [if_neg (not_le.mpr hs)]
  exact le_max_left _ _

theorem round_to_step_mono {x y s : ℚ} (hxy : x ≤ y) (hs : 0 < s) :
    round_to_step x s ≤ round_to_step y s := by
  unfold round_to_step
  rw [if_neg (not_le.mpr hs), if_neg (not_le.mpr hs)]
  have hdiv : x / s ≤ y / s := by gcongr
  have hr : pyRound (x / s) ≤ pyRound (y / s) := pyRound_mono hdiv
  have : (pyRound (x / s) : ℚ) * s ≤ (pyRound (y / s) : ℚ) * s := by
    have : (pyRound (x / s) : ℚ) ≤ (pyRound (y / s) : ℚ) := by exact_mod_cast hr
    exact mul_le_mul_of_nonneg_right this (le_of_lt hs)
  exact max_le_max le_rfl this

theorem round_to_step_of_nonpos {x s : ℚ} (hx : x ≤ 0) (hs : 0 < s) :
    round_to_step x s = s := by
  unfold round_to_step
  rw [if_neg (not_le.mpr hs)]
  have hdiv : x / s ≤ 0 := div_nonpos_of_nonpos_of_nonneg hx (le_of_lt hs)
  have hb : (pyRound (x / s) : ℚ) ≤ x / s + 1/2 := pyRound_le (x / s)
  have hr : pyRound (x / s) ≤ 0 := by
    by_contra hpos
    push_neg at hpos
    have : (1 : ℚ) ≤ (pyRound (x / s) : ℚ) := by exact_mod_cast hpos
    linarith
  have : (pyRound (x / s) : ℚ) * s ≤ 0 := by
    have hc : (pyRound (x / s) : ℚ) ≤ 0 := by exact_mod_cast hr
    exact mul_nonpos_of_nonpos_of_nonneg hc (le_of_lt hs)
  exact max_eq_left (le_trans this (le_of_lt hs))

theorem equipment_step_pos (name : String) : 0 < equipment_step name := by
  unfold equipment_step
  split_ifs <;> norm_num [DB_STEP, MACHINE_STEP, PLATE_STEP]

theorem coeffsGet_nov_le_exp (k : String) :
    0 < (coeffsGet k).1 ∧ (coeffsGet k).1 ≤ (coeffsGet k).2 := by
  unfold coeffsGet COEFFS_BW
  simp only [alookup]
  split_ifs <;> simp <;> norm_num

theorem gender_corr_pos (g : Option String) : 0 < _gender_corr g := by
  unfold _gender_corr
  rcases g with _ | s
  · norm_num
  · repeat' split
    all_goals norm_num

theorem age_corr_pos (a : Option ℤ) : 0 < _age_corr a := by
  unfold _age_corr
  rcases a with _ | n
  · norm_num
  · repeat' split
    all_goals norm_num

theorem goal_corr_pos (t : Option String) : 0 < _goal_corr t := by
  unfold _goal_corr
  rcases t with _ | s
  · norm_num
  · repeat' split
    all_goals norm_num

/-! ## Claims C4–C7: the load estimator -/

/-- C4: `weight_for_reps_from_1rm` selects the intensity tier by target rep
count with exact boundaries: any target ≥ 10 yields 67.5% of the 1RM, any
target in 7..9 yields 75%, and any target ≤ 6 yields 85%. -/
theorem c4_rep_tier_boundaries (one_rm : ℚ) (r : ℤ) :
    (10 ≤ r → weight_for_reps_from_1rm one_rm r = one_rm * 0.675) ∧
    (7 ≤ r → r ≤ 9 → weight_for_reps_from_1rm one_rm r = one_rm * 0.75) ∧
    (r ≤ 6 → weight_for_reps_from_1rm one_rm r = one_rm * 0.85) := by
  unfold weight_for_reps_from_1rm
  refine ⟨fun h => ?_, fun h7 h9 => ?_, fun h6 => ?_⟩
  · rw [if_pos h]
  · rw [if_neg (by omega), if_pos h7]
  · rw [if_neg (by omega), if_neg (by omega)]

/-- Witness for C4 at the boundary targets 10, 7 and 6. -/
theorem c4_witness :
    weight_for_reps_from_1rm 80 10 = 80 * 0.675 ∧
    weight_for_reps_from_1rm 80 7 = 80 * 0.75 ∧
    weight_for_reps_from_1rm 80 6 = 80 * 0.85 :=
  ⟨(c4_rep_tier_boundaries 80 10).1 (by norm_num),
   (c4_rep_tier_boundaries 80 7).2.1 (by norm_num) (by norm_num),
   (c4_rep_tier_boundaries 80 6).2.2 (by norm_num)⟩

/-- C5: for every exercise name, profile and target rep count, a prior lift
with positive load and positive rep count makes
`recommend_weight_for_exercise` return the step-rounding of
`load * (1 + reps/30) * pct(target_reps)` with the history provenance tag;
in particular for load 60, reps 8, target 10 the pre-rounding load is
`60 * (1 + 8/30) * 0.675 = 51.3`. -/
theorem c5_history_epley (name : String) (u : WUser) (target : ℤ) (lw : ℚ) (rp : ℤ)
    (hlw : 0 < lw) (hrp : 0 < rp) :
    recommend_weight_for_exercise name u target (some ⟨some lw, some rp, none⟩) =
      (round_to_step (weight_for_reps_from_1rm (estimate_1rm lw rp) target)
        (equipment_step name), "по истории (1RM)") ∧
    weight_for_reps_from_1rm (estimate_1rm 60 8) 10 = 51.3 := by
  constructor
  · simp only [recommend_weight_for_exercise]
    rw [if_pos ⟨hlw.ne', hrp.ne'⟩]
  · norm_num [estimate_1rm, weight_for_reps_from_1rm]

/-- Witness for C5: spec Scenario B (bench press, prior 60×8, target 10). -/
theorem c5_witness :
    recommend_weight_for_exercise "Жим лёжа"
        ⟨some "мужской", some 30, some 180, some 80, some "начинающий", some "набор массы"⟩
        10 (some ⟨some 60, some 8, none⟩) =
      (round_to_step (weight_for_reps_from_1rm (estimate_1rm 60 8) 10)
        (equipment_step "Жим лёжа"), "по истории (1RM)") ∧
    weight_for_reps_from_1rm (estimate_1rm 60 8) 10 = 51.3 :=
  c5_history_epley "Жим лёжа"
    ⟨some "мужской", some 30, some 180, some 80, some "начинающий", some "набор массы"⟩
    10 60 8 (by norm_num) (by norm_num)

/-- The pre-rounding anthropometric estimate of
`recommend_weight_for_exercise` (the value `w` just before the final
`round_to_step` on the no-history path). -/
def anthro_pre (exercise_name : String) (user : WUser) : ℚ :=
  (match base_key exercise_name with
    | some k =>
      if k ≠ "" ∧ (user.weight_kg).getD 0 ≠ 0 then
        (user.weight_kg).getD 0 *
          (if _level_idx user.level ≠ 0 then (coeffsGet k).2 else (coeffsGet k).1)
      else
        (if (user.weight_kg).getD 0 ≠ 0 then (user.weight_kg).getD 0 else 60) *
          (if containsSub "гантел" (pyLowerStr exercise_name) then 0.25 else 0.4)
    | none =>
      (if (user.weight_kg).getD 0 ≠ 0 then (user.weight_kg).getD 0 else 60) *
        (if containsSub "гантел" (pyLowerStr exercise_name) then 0.25 else 0.4))
    * _gender_corr user.gender * _age_corr user.age * _goal_corr user.target

/-- The pre-rounding estimate of `recommend_weight_for_exercise` on either
path: the value handed to the final `round_to_step`. -/
def recommend_pre (exercise_name : String) (user : WUser) (target_reps : ℤ)
    (history : Option WHistory) : ℚ :=
  match history with
  | some h =>
    match h.last_weight, h.reps with
    | some lw, some rp =>
      if lw ≠ 0 ∧ rp ≠ 0 then weight_for_reps_from_1rm (estimate_1rm lw rp) target_reps
      else anthro_pre exercise_name user
    | _, _ => anthro_pre exercise_name user
  | none => anthro_pre exercise_name user

/-- The provenance tag of `recommend_weight_for_exercise`. -/
def recommend_tag (history : Option WHistory) : String :=
  match history with
  | some h =>
    match h.last_weight, h.reps with
    | some lw, some rp =>
      if lw ≠ 0 ∧ rp ≠ 0 then "по истории (1RM)" else "старт по антропометрии"
    | _, _ => "старт по антропометрии"
  | none => "старт по антропометрии"

/-- `recommend_weight_for_exercise` always rounds its pre-rounding estimate
to the equipment step and pairs it with the provenance tag. -/
theorem recommend_eq (name : String) (u : WUser) (t : ℤ) (h : Option WHistory) :
    recommend_weight_for_exercise name u t h =
      (round_to_step (recommend_pre name u t h) (equipment_step name),
       recommend_tag h) := by
  rcases h with _ | ⟨lw?, rp?, r⟩
  · rfl
  · rcases lw? with _ | lw <;> rcases rp? with _ | rp
    · rfl
    · rfl
    · rfl
    · simp only [recommend_weight_for_exercise, recommend_pre, recommend_tag]
      by_cases hcond : lw ≠ 0 ∧ rp ≠ 0
      · rw [if_pos hcond, if_pos hcond, if_pos hcond]
      · rw [if_neg hcond, if_neg hcond, if_neg hcond]
        rfl

/-- C6: for every exercise name (matched by an alias or not) and every
profile, the recommended load is at least one equipment step for that name —
hence strictly positive — and is the step-rounding of its pre-rounding
estimate. -/
theorem c6_result_positive_step_rounded (name : String) (u : WUser) (target : ℤ)
    (h : Option WHistory) :
    equipment_step name ≤ (recommend_weight_for_exercise name u target h).1 ∧
    0 < (recommend_weight_for_exercise name u target h).1 ∧
    ∃ pre : ℚ,
      (recommend_weight_for_exercise name u target h).1 =
        round_to_step pre (equipment_step name) := by
  have hs := equipment_step_pos name
  have hpre : (recommend_weight_for_exercise name u target h).1 =
      round_to_step (recommend_pre name u target h) (equipment_step name) := by
    rw [recommend_eq]
  refine ⟨?_, ?_, ⟨recommend_pre name u target h, hpre⟩⟩
  · rw [hpre]; exact round_to_step_ge_step _ hs
  · rw [hpre]; exact lt_of_lt_of_le hs (round_to_step_ge_step _ hs)

/-- C7: with no prior-lift history, for every movement name, body weight and
otherwise identical profile, the anthropometry-derived recommendation for a
level classified as experienced is at least the one for a level classified
as novice. -/
theorem c7_experienced_ge_novice (name : String) (g : Option String) (a : Option ℤ)
    (hcm : Option ℚ) (bw : Option ℚ) (tgt : Option String)
    (lvlN lvlE : Option String) (target : ℤ)
    (hE : _level_idx lvlE = 1) (hN : _level_idx lvlN = 0) :
    (recommend_weight_for_exercise name ⟨g, a, hcm, bw, lvlN, tgt⟩ target none).1 ≤
    (recommend_weight_for_exercise name ⟨g, a, hcm, bw, lvlE, tgt⟩ target none).1 := by
  have hs := equipment_step_pos name
  have hgc := gender_corr_pos g
  have hac := age_corr_pos a
  have htc := goal_corr_pos tgt
  rw [recommend_eq, recommend_eq]
  simp only [recommend_pre]
  unfold anthro_pre
  simp only []
  cases hbk : base_key name with
  | none => exact le_refl _
  | some k =>
    simp only [hE, hN]
    norm_num
    by_cases hcond : k ≠ "" ∧ (bw.getD 0) ≠ 0
    · rw [if_pos hcond, if_pos hcond]
      obtain ⟨hk, hbw⟩ := hcond
      obtain ⟨hnovpos, hnovexp⟩ := coeffsGet_nov_le_exp k
      set b := bw.getD 0 with hb
      rcases lt_or_gt_of_ne hbw with hneg | hpos
      · have hA : b * (coeffsGet k).1 * _gender_corr g * _age_corr a * _goal_corr tgt ≤ 0 := by
          have h1 : b * (coeffsGet k).1 ≤ 0 :=
            mul_nonpos_of_nonpos_of_nonneg (le_of_lt hneg) (le_of_lt hnovpos)
          have h2 : b * (coeffsGet k).1 * _gender_corr g ≤ 0 :=
            mul_nonpos_of_nonpos_of_nonneg h1 (le_of_lt hgc)
          have h3 : b * (coeffsGet k).1 * _gender_corr g * _age_corr a ≤ 0 :=
            mul_nonpos_of_nonpos_of_nonneg h2 (le_of_lt hac)
          exact mul_nonpos_of_nonpos_of_nonneg h3 (le_of_lt htc)
        have hB : b * (coeffsGet k).2 * _gender_corr g * _age_corr a * _goal_corr tgt ≤ 0 := by
          have hexppos : (0:ℚ) < (coeffsGet k).2 := lt_of_lt_of_le hnovpos hnovexp
          have h1 : b * (coeffsGet k).2 ≤ 0 :=
            mul_nonpos_of_nonpos_of_nonneg (le_of_lt hneg) (le_of_lt hexppos)
          have h2 : b * (coeffsGet k).2 * _gender_corr g ≤ 0 :=
            mul_nonpos_of_nonpos_of_nonneg h1 (le_of_lt hgc)
          have h3 : b * (coeffsGet k).2 * _gender_corr g * _age_corr a ≤ 0 :=
            mul_nonpos_of_nonpos_of_nonneg h2 (le_of_lt hac)
          exact mul_nonpos_of_nonpos_of_nonneg h3 (le_of_lt htc)
        rw [round_to_step_of_nonpos hA hs, round_to_step_of_nonpos hB hs]
      · apply round_to_step_mono _ hs
        gcongr
    · rw [if_neg hcond, if_neg hcond]

/-- Witness for C7 at the Russian level strings the bot stores. -/
theorem c7_witness :
    (recommend_weight_for_exercise "Приседания со штангой"
        ⟨some "мужской", some 30, some 180, some 80, some "начинающий", some "похудение"⟩
        10 none).1 ≤
    (recommend_weight_for_exercise "Приседания со штангой"
        ⟨some "мужской", some 30, some 180, some 80, some "опытный", some "похудение"⟩
        10 none).1 :=
  c7_experienced_ge_novice "Приседания со штангой" (some "мужской") (some 30)
    (some 180) (some 80) (some "похудение") (some "начинающий") (some "опытный") 10
    (by decide) (by decide)

/-! ## `app/agent.py` — the retry loops of `get_answer` / `get_response`

Both `_chat_sync` closures run `for attempt in range(1, GIGACHAT_RETRIES + 1)`:
a successful call returns its text at once; on any exception the loop
re-raises if `attempt == GIGACHAT_RETRIES` and otherwise sleeps
`2 * attempt` seconds and continues.  The outbound GigaChat call (including
the inner `try/except TypeError` SDK-signature fallback, which is one and
the same attempt) is abstracted as a function from the attempt number to an
outcome.  The model returns the result together with the number of attempts
performed. -/

/-- Kinds of failure an attempt can produce (how the bot's error text later
classifies the exception string). -/
inductive GErrKind
  | timeout
  | connection
  | server
  | auth
  | other
deriving DecidableEq

/-- Outcome of one attempt of the abstracted GigaChat call. -/
inductive GOutcome
  | ok (text : String)
  | fail (k : GErrKind)
deriving DecidableEq

/-- What a `_chat_sync` run can raise: the exception of some attempt, or the
fallback `RuntimeError` reached only when the loop body never runs
(`GIGACHAT_RETRIES < 1`). -/
inductive GError
  | fromAttempt (k : GErrKind)
  | exhaustedNone
deriving DecidableEq

/-- The retry loop shared by both `_chat_sync` closures, by remaining
attempts: `gigaLoop call remaining attempt` runs attempts
`attempt, attempt+1, …, attempt+remaining-1`; the final one re-raises its
exception.  Returns the result and the number of attempts performed. -/
def gigaLoop (call : ℕ → GOutcome) : ℕ → ℕ → Except GError String × ℕ
  | 0, _ => (.error .exhaustedNone, 0)
  | 1, attempt =>
    (match call attempt with
     | .ok t => .ok t
     | .fail k => .error (.fromAttempt k), 1)
  | (n + 2), attempt =>
    match call attempt with
    | .ok t => (.ok t, 1)
    | .fail _ =>
      let r := gigaLoop call (n + 1) (attempt + 1)
      (r.1, r.2 + 1)

/-- `_chat_sync` of `FitnessAgent.get_answer` (Q&A path): the loop starting
at attempt 1 with `retries = GIGACHAT_RETRIES`. -/
def get_answer_chat_sync (call : ℕ → GOutcome) (retries : ℕ) :
    Except GError String × ℕ :=
  gigaLoop call retries 1

/-- `_chat_sync` of `FitnessAgent.get_response` (plan path): identical loop
structure. -/
def get_response_chat_sync (call : ℕ → GOutcome) (retries : ℕ) :
    Except GError String × ℕ :=
  gigaLoop call retries 1

theorem gigaLoop_attempts_le (call : ℕ → GOutcome) :
    ∀ r a, (gigaLoop call r a).2 ≤ r := by
  intro r
  induction r using Nat.strong_induction_on with
  | _ r ih =>
    intro a
    match r with
    | 0 => simp [gigaLoop]
    | 1 =>
      unfold gigaLoop
      cases call a <;> simp
    | (n + 2) =>
      unfold gigaLoop
      cases call a with
      | ok t => simp
      | fail k =>
        simp only []
        have := ih (n + 1) (by omega) (a + 1)
        omega

theorem gigaLoop_attempts_pos (call : ℕ → GOutcome) :
    ∀ r a, 1 ≤ r → 1 ≤ (gigaLoop call r a).2 := by
  intro r a hr
  match r with
  | 1 =>
    unfold gigaLoop
    cases call a <;> simp
  | (n + 2) =>
    unfold gigaLoop
    cases call a <;> simp

/-- If attempts `a, …, j-1` fail and attempt `j` succeeds within the budget,
the loop returns attempt `j`'s text after `j + 1 - a` attempts. -/
theorem gigaLoop_first_ok (call : ℕ → GOutcome) :
    ∀ r a j t, a ≤ j → j + 1 ≤ a + r →
      (∀ i, a ≤ i → i < j → ∃ e, call i = .fail e) →
      call j = .ok t →
      gigaLoop call r a = (.ok t, j + 1 - a) := by
  intro r
  induction r using Nat.strong_induction_on with
  | _ r ih =>
    intro a j t haj hjr hfails hok
    match r with
    | 0 => omega
    | 1 =>
      have hja : j = a := by omega
      subst hja
      unfold gigaLoop
      rw [hok]
      simp
    | (n + 2) =>
      by_cases hja : j = a
      · subst hja
        unfold gigaLoop
        rw [hok]
        simp
      · have haj' : a + 1 ≤ j := by omega
        obtain ⟨e, he⟩ := hfails a (le_refl a) (by omega)
        unfold gigaLoop
        rw [he]
        simp only []
        have hrec := ih (n + 1) (by omega) (a + 1) j t haj' (by omega)
          (fun i hi hij => hfails i (by omega) hij) hok
        rw [hrec]
        simp
        omega

/-- If every attempt in the budget fails, the loop raises the error of the
final attempt after exactly `r` attempts. -/
theorem gigaLoop_all_fail (call : ℕ → GOutcome) :
    ∀ r a k, 1 ≤ r →
      (∀ i, a ≤ i → i < a + r → ∃ e, call i = .fail e) →
      call (a + r - 1) = .fail k →
      gigaLoop call r a = (.error (.fromAttempt k), r) := by
  intro r
  induction r using Nat.strong_induction_on with
  | _ r ih =>
    intro a k hr hfails hlast
    match r with
    | 1 =>
      unfold gigaLoop
      have : a + 1 - 1 = a := by omega
      rw [this] at hlast
      rw [hlast]
    | (n + 2) =>
      obtain ⟨e, he⟩ := hfails a (le_refl a) (by omega)
      unfold gigaLoop
      rw [he]
      simp only []
      have hlast' : call (a + 1 + (n + 1) - 1) = .fail k := by
        have : a + 1 + (n + 1) - 1 = a + (n + 2) - 1 := by omega
        rw [this]; exact hlast
      have hrec := ih (n + 1) (by omega) (a + 1) k (by omega)
        (fun i hi hir => hfails i (by omega) (by omega)) hlast'
      rw [hrec]

/-! ## Claims C3 and C8: retry behaviour -/

/-- Attempt schedule refuting C3: an authentication failure on attempt 1,
success on attempt 2. -/
def c3call : ℕ → GOutcome := fun i => if i = 1 then .fail .auth else .ok "ok"

/-- Counterexample to C3: in the Q&A retry loop an authentication failure on
attempt 1 is not raised to the caller — a second attempt runs and its
success is returned (and the plan path behaves identically), contradicting
"raised immediately, with no further attempt". -/
theorem c3_counterexample :
    c3call 1 = .fail .auth ∧
    get_answer_chat_sync c3call 3 = (.ok "ok", 2) ∧
    get_response_chat_sync c3call 3 = (.ok "ok", 2) :=
  ⟨rfl, rfl, rfl⟩

/-- C3 as amended: the retry loops treat every exception alike — a failure
of any kind (authentication/permission included) on attempt 1 within a
budget of at least 2 leads to a further attempt in both the Q&A and the plan
path, and an error reaches the caller only when every attempt fails, in
which case it is the final attempt's error. -/
theorem c3_all_failures_retried (call : ℕ → GOutcome) (n : ℕ) (k k' : GErrKind)
    (hn : 2 ≤ n) (h1 : call 1 = .fail k) :
    2 ≤ (get_answer_chat_sync call n).2 ∧
    2 ≤ (get_response_chat_sync call n).2 ∧
    ((∀ i, 1 ≤ i → i ≤ n → ∃ e, call i = .fail e) → call n = .fail k' →
      get_answer_chat_sync call n = (.error (.fromAttempt k'), n) ∧
      get_response_chat_sync call n = (.error (.fromAttempt k'), n)) := by
  have hsecond : 2 ≤ (gigaLoop call n 1).2 := by
    obtain ⟨m, hm⟩ : ∃ m, n = m + 2 := ⟨n - 2, by omega⟩
    subst hm
    show 2 ≤ (gigaLoop call (m + 2) 1).2
    unfold gigaLoop
    rw [h1]
    show 2 ≤ (gigaLoop call (m + 1) 2).2 + 1
    have := gigaLoop_attempts_pos call (m + 1) 2 (by omega)
    omega
  refine ⟨hsecond, hsecond, fun hall hlast => ?_⟩
  have := gigaLoop_all_fail call n 1 k' (by omega)
    (fun i hi hir => hall i hi (by omega)) (by simpa using hlast)
  exact ⟨this, this⟩

/-- Witness for C3's amended theorem: every attempt fails with an
authentication error; the loop still performs both attempts and raises the
final attempt's error. -/
theorem c3_witness :
    2 ≤ (get_answer_chat_sync (fun _ => .fail .auth) 2).2 ∧
    2 ≤ (get_response_chat_sync (fun _ => .fail .auth) 2).2 ∧
    get_answer_chat_sync (fun _ => .fail .auth) 2 =
      (.error (.fromAttempt .auth), 2) ∧
    get_response_chat_sync (fun _ => .fail .auth) 2 =
      (.error (.fromAttempt .auth), 2) := by
  have h := c3_all_failures_retried (fun _ => .fail .auth) 2 .auth .auth
    (by norm_num) rfl
  obtain ⟨ha, hb, hc⟩ := h
  obtain ⟨hd, he⟩ := hc (fun i _ _ => ⟨.auth, rfl⟩) rfl
  exact ⟨ha, hb, hd, he⟩

/-- C8: each generation call performs at most `n` attempts; a success on
attempt `j` after failures on the earlier attempts is returned at once with
exactly `j` attempts performed (so fail, fail, success gives exactly 3); and
when all `n` attempts fail the error of the final attempt is re-raised. -/
theorem c8_retry_budget (call : ℕ → GOutcome) (n j : ℕ) (t : String) (k : GErrKind) :
    ((get_response_chat_sync call n).2 ≤ n) ∧
    (1 ≤ j → j ≤ n → (∀ i, 1 ≤ i → i < j → ∃ e, call i = .fail e) →
      call j = .ok t → get_response_chat_sync call n = (.ok t, j)) ∧
    (1 ≤ n → (∀ i, 1 ≤ i → i ≤ n → ∃ e, call i = .fail e) → call n = .fail k →
      get_response_chat_sync call n = (.error (.fromAttempt k), n)) := by
  refine ⟨gigaLoop_attempts_le call n 1, fun hj hjn hfails hok => ?_, fun hn hall hlast => ?_⟩
  · have := gigaLoop_first_ok call n 1 j t hj (by omega) hfails hok
    unfold get_response_chat_sync
    rw [this]
    norm_num
  · exact gigaLoop_all_fail call n 1 k hn (fun i hi hir => hall i hi (by omega))
      (by simpa using hlast)

/-- Attempt schedule for C8's witness: timeouts on attempts 1 and 2, success
on attempt 3 (spec Scenario E). -/
def c8call : ℕ → GOutcome := fun i => if i ≤ 2 then .fail .timeout else .ok "plan"

/-- Witness for C8 at Scenario E: within the default budget of 3 the loop
returns the successful text of attempt 3 with exactly 3 attempts. -/
theorem c8_witness :
    (get_response_chat_sync c8call 3).2 ≤ 3 ∧
    get_response_chat_sync c8call 3 = (.ok "plan", 3) := by
  have h := c8_retry_budget c8call 3 3 "plan" .timeout
  refine ⟨h.1, h.2.1 (by norm_num) (le_refl 3) ?_ (by decide)⟩
  intro i h1 h2
  exact ⟨.timeout, by
    have : i ≤ 2 := by omega
    simp [c8call, this]⟩

/-! ## `app/storage.py` — record schema and normalization

A persisted record is a JSON-like dynamic value.  `_ensure_structure`
normalizes any such value to the fixed `DEFAULT_USER_DATA` schema;
`save_user_data` writes exactly the normalized record (JSON serialization is
assumed faithful), and `load_user_data` re-normalizes what it reads. -/

/-- JSON-like dynamic values (what a Python dict loaded from JSON holds). -/
inductive Val
  | vnull
  | vstr (s : String)
  | vint (n : ℤ)
  | vrat (q : ℚ)
  | vbool (b : Bool)
  | vlist (l : List Val)
  | vdict (m : List (String × Val))

/-- Python truthiness of a value (`if x:`). -/
def valTruthy : Val → Bool
  | .vnull => false
  | .vstr s => s != ""
  | .vint n => n != 0
  | .vrat q => q != 0
  | .vbool b => b
  | .vlist l => !l.isEmpty
  | .vdict m => !m.isEmpty

/-- `x is None` for a dynamic value. -/
def Val.isNull : Val → Bool
  | .vnull => true
  | _ => false

/-- `d[k] = v` on a Python dict: replace in place if the key exists,
otherwise append (insertion order preserved). -/
def dictInsert (k : String) (v : Val) : List (String × Val) → List (String × Val)
  | [] => [(k, v)]
  | (k', v') :: rest => if k' = k then (k, v) :: rest else (k', v') :: dictInsert k v rest

/-- The `physical_data` sub-dictionary of `DEFAULT_USER_DATA`: ten fixed
keys, each holding an arbitrary dynamic value (default `None`). -/
structure PhysData where
  name : Val
  gender : Val
  age : Val
  height : Val
  weight : Val
  goal : Val
  restrictions : Val
  level : Val
  schedule : Val
  target : Val

/-- All-`None` `physical_data`, as in `DEFAULT_USER_DATA`. -/
def defaultPhys : PhysData :=
  ⟨.vnull, .vnull, .vnull, .vnull, .vnull, .vnull, .vnull, .vnull, .vnull, .vnull⟩

/-- A record in the shape `_ensure_structure` guarantees: exactly the keys of
`DEFAULT_USER_DATA`, with `history`/`programs` lists, `lifts` a dict,
`last_reply`/`last_program` either `None` or a string, and the completion
flag a boolean. -/
structure StoredRecord where
  history : List Val
  physical_data : PhysData
  lifts : List (String × Val)
  last_reply : Option String
  last_program : Option String
  physical_data_completed : Bool
  programs : List Val

/-- `DEFAULT_USER_DATA` as a typed record. -/
def defaultRecord : StoredRecord :=
  ⟨[], defaultPhys, [], none, none, false, []⟩

/-- The `physical_data` dict of a record, in `DEFAULT_USER_DATA` key order. -/
def physToVal (p : PhysData) : List (String × Val) :=
  [("name", p.name), ("gender", p.gender), ("age", p.age), ("height", p.height),
   ("weight", p.weight), ("goal", p.goal), ("restrictions", p.restrictions),
   ("level", p.level), ("schedule", p.schedule), ("target", p.target)]

/-- An `Option String` back to the dynamic value it was checked from. -/
def optStrVal : Option String → Val
  | none => .vnull
  | some s => .vstr s

/-- The JSON object `save_user_data` writes for a normalized record, in
`DEFAULT_USER_DATA` key order. -/
def toVal (r : StoredRecord) : Val :=
  .vdict
    [("history", .vlist r.history),
     ("physical_data", .vdict (physToVal r.physical_data)),
     ("lifts", .vdict r.lifts),
     ("last_reply", optStrVal r.last_reply),
     ("last_program", optStrVal r.last_program),
     ("physical_data_completed", .vbool r.physical_data_completed),
     ("programs", .vlist r.programs)]

/-- The root keys of `DEFAULT_USER_DATA`. -/
def schemaRootKeys : List String :=
  ["history", "physical_data", "lifts", "last_reply", "last_program",
   "physical_data_completed", "programs"]

/-- The root pairs of a dynamic value (`[]` when it is not a dict). -/
def rootPairs : Val → List (String × Val)
  | .vdict m => m
  | _ => []

/-- The root keys of a dynamic value. -/
def dictKeys (v : Val) : List String := (rootPairs v).map Prod.fst

/-- The legacy-field migration of `_ensure_structure`: if `k` is present at
the root of the incoming dict and the copied `physical_data` value for `k`
is `None`, take the root value. -/
def legacyFix (m : List (String × Val)) (k : String) (cur : Val) : Val :=
  match alookup k m with
  | some v => if cur.isNull then v else cur
  | none => cur

/-- One `physical_data` field: the incoming value if the key is present,
otherwise the default `None` (a present `None` and an absent key coincide). -/
def pdField (pd : List (String × Val)) (k : String) : Val :=
  (alookup k pd).getD .vnull

/-- `_ensure_structure(data)` from `app/storage.py`: normalize an arbitrary
dynamic value to the `DEFAULT_USER_DATA` schema.  Non-dict input yields the
default record; `history`/`lifts`/`programs` are taken only at the right
type; `last_reply`/`last_program` only when `None` or a string (both cases
collapse to the same typed field); the legacy root keys `schedule`, `level`,
`target` migrate into `physical_data` when its copied value is `None`;
unknown keys are dropped. -/
def ensureStructure : Val → StoredRecord
  | .vdict m =>
    let pd := match alookup "physical_data" m with
      | some (.vdict p) => p
      | _ => []
    { history := match alookup "history" m with
        | some (.vlist l) => l
        | _ => []
      physical_data :=
        { name := pdField pd "name"
          gender := pdField pd "gender"
          age := pdField pd "age"
          height := pdField pd "height"
          weight := pdField pd "weight"
          goal := pdField pd "goal"
          restrictions := pdField pd "restrictions"
          level := legacyFix m "level" (pdField pd "level")
          schedule := legacyFix m "schedule" (pdField pd "schedule")
          target := legacyFix m "target" (pdField pd "target") }
      lifts := match alookup "lifts" m with
        | some (.vdict d) => d
        | _ => []
      last_reply := match alookup "last_reply" m with
        | some (.vstr s) => some s
        | _ => none
      last_program := match alookup "last_program" m with
        | some (.vstr s) => some s
        | _ => none
      physical_data_completed := match alookup "physical_data_completed" m with
        | some (.vbool b) => b
        | _ => false
      programs := match alookup "programs" m with
        | some (.vlist l) => l
        | _ => [] }
  | _ => defaultRecord

/-- Re-normalizing what `save_user_data` wrote recovers the record exactly:
`_ensure_structure` is the identity on serialized normalized records. -/
theorem ensureStructure_toVal (r : StoredRecord) : ensureStructure (toVal r) = r := by
  obtain ⟨h, pd, l, lr, lp, c, pr⟩ := r
  obtain ⟨f1, f2, f3, f4, f5, f6, f7, f8, f9, f10⟩ := pd
  cases lr <;> cases lp <;> rfl

/-- A key absent from an association list looks up to nothing. -/
theorem alookup_eq_none_of_not_mem {α : Type} (k : String) :
    ∀ m : List (String × α), k ∉ m.map Prod.fst → alookup k m = none := by
  intro m
  induction m with
  | nil => intro _; rfl
  | cons p rest ih =>
    intro hk
    simp only [List.map_cons, List.mem_cons] at hk
    push_neg at hk
    obtain ⟨h1, h2⟩ := hk
    obtain ⟨k', v⟩ := p
    simp only [alookup]
    rw [if_neg (by simpa using h1.symm)]
    exact ih h2

/-- Nothing outside the fixed schema survives a save: the object written by
`save_user_data` has no binding for any non-schema key. -/
theorem alookup_toVal_eq_none (r : StoredRecord) (k : String)
    (hk : k ∉ schemaRootKeys) : alookup k (rootPairs (toVal r)) = none := by
  apply alookup_eq_none_of_not_mem
  simpa [toVal, rootPairs, schemaRootKeys] using hk

/-! ## The history-append step of `FitnessAgent.get_response`
(`app/agent.py` lines 293–302) and the save in `main.py`'s `program_cmd`. -/

/-- The history/last-program update `get_response` performs after producing
`personalized`: append one `(user turn, assistant turn)` pair (tuples are
serialized as JSON lists) and remember the last program; `save_user_data`
then persists the record. -/
def agentRecordResponse (d : StoredRecord) (user_input personalized : String) :
    StoredRecord :=
  let pair : Val :=
    if pyStripStr user_input ≠ "" then
      .vlist [.vstr ("🧍 " ++ user_input), .vstr ("🤖 " ++ personalized)]
    else
      .vlist [.vstr "🧍 Запрос программы", .vstr ("🤖 " ++ personalized)]
  { d with history := d.history ++ [pair], last_program := some personalized }

/-- `k` successive `get_response` history updates starting from a fresh
default record. -/
def iterResponses : ℕ → StoredRecord
  | 0 => defaultRecord
  | k + 1 => agentRecordResponse (iterResponses k) "" "plan"

theorem iterResponses_length (k : ℕ) : (iterResponses k).history.length = k := by
  induction k with
  | zero => rfl
  | succ k ih => simp [iterResponses, agentRecordResponse, ih]

/-- The in-memory dict `program_cmd` (`main.py`) saves: the loaded record
with `last_program_text` set and one history pair appended. -/
def programCmdRecord (r : StoredRecord) (response : String) : Val :=
  .vdict (dictInsert "last_program_text" (.vstr response)
    (dictInsert "history"
      (.vlist (r.history ++
        [.vlist [.vstr "🧍 Запрос программы (/program)", .vstr ("🤖 " ++ response)]]))
      (rootPairs (toVal r))))

/-! ## Claims C9 and C10: persistence -/

/-- Counterexample to C9: the conversation history has no retention bound —
iterating the `get_response` history update from a fresh record produces
histories of every length, so no fixed bound `B` dominates them all. -/
theorem c9_counterexample :
    ¬ ∃ B : ℕ, ∀ k : ℕ, (iterResponses k).history.length ≤ B := by
  rintro ⟨B, hB⟩
  have := hB (B + 1)
  rw [iterResponses_length] at this
  omega

/-- C9 as amended: the history is unbounded — every `get_response` appends
exactly one pair (nothing is dropped), and the save/load normalization
preserves the history verbatim, so its length only ever grows. -/
theorem c9_history_unbounded (d : StoredRecord) (u p : String) :
    (agentRecordResponse d u p).history.length = d.history.length + 1 ∧
    (ensureStructure (toVal (agentRecordResponse d u p))).history =
      (agentRecordResponse d u p).history := by
  constructor
  · simp [agentRecordResponse]
  · rw [ensureStructure_toVal]

/-- C10: `save_user_data` persists exactly `_ensure_structure(data)`: the
stored object has exactly the schema's root keys; any non-schema key —
`last_program_text` included, even via `program_cmd`'s save — is dropped;
and a subsequent `load_user_data` returns `_ensure_structure(d)` again. -/
theorem c10_save_normalizes (v : Val) (k : String) (r : StoredRecord)
    (response : String) (hk : k ∉ schemaRootKeys) :
    dictKeys (toVal (ensureStructure v)) = schemaRootKeys ∧
    alookup k (rootPairs (toVal (ensureStructure v))) = none ∧
    ensureStructure (toVal (ensureStructure v)) = ensureStructure v ∧
    alookup "last_program_text"
      (rootPairs (toVal (ensureStructure (programCmdRecord r response)))) = none := by
  refine ⟨rfl, alookup_toVal_eq_none _ k hk, ensureStructure_toVal _, ?_⟩
  exact alookup_toVal_eq_none _ "last_program_text" (by decide)

/-- Witness for C10: a record carrying a junk key and `program_cmd`'s
`last_program_text` is saved without either. -/
theorem c10_witness :
    dictKeys (toVal (ensureStructure (.vdict
      [("last_program_text", .vstr "plan"),
       ("physical_data", .vdict [("name", .vstr "Иван")])]))) = schemaRootKeys ∧
    alookup "last_program_text" (rootPairs (toVal (ensureStructure (.vdict
      [("last_program_text", .vstr "plan"),
       ("physical_data", .vdict [("name", .vstr "Иван")])])))) = none ∧
    ensureStructure (toVal (ensureStructure (.vdict
      [("last_program_text", .vstr "plan"),
       ("physical_data", .vdict [("name", .vstr "Иван")])]))) =
      ensureStructure (.vdict
        [("last_program_text", .vstr "plan"),
         ("physical_data", .vdict [("name", .vstr "Иван")])]) ∧
    alookup "last_program_text"
      (rootPairs (toVal (ensureStructure (programCmdRecord defaultRecord "plan")))) =
        none :=
  c10_save_normalizes
    (.vdict [("last_program_text", .vstr "plan"),
             ("physical_data", .vdict [("name", .vstr "Иван")])])
    "last_program_text" defaultRecord "plan" (by decide)

/-! ## `app/agent.py` — the output sanitizer `_strip_rpe`

Each `re.sub` pass is modelled as a leftmost scan: at every position of the
original string the pattern-specific matcher is tried; on a match its
replacement is emitted and scanning resumes right after the consumed
segment, otherwise the character is copied.  Word boundaries (`\b`) and the
`MULTILINE` `^` anchor are judged against the original string, exactly as
`re.sub` does, by threading the previously consumed original character.
Every pattern of `_strip_rpe` is deterministic under greedy matching
(each quantified class is disjoint from what follows it), so the matchers
below implement the regexes directly.  All matchers consume at least one
character. -/

/-- A matcher: given the previous original character (`none` at the string
start) and the rest of the input, return the replacement text and the
remaining input on a match at this position. -/
def SubMatcher : Type := Option Char → List Char → Option (List Char × List Char)

/-- Case-insensitive literal (`re.IGNORECASE` via `str.lower` on both sides). -/
def eatLitCI : List Char → List Char → Option (List Char)
  | [], s => some s
  | _ :: _, [] => none
  | p :: ps, c :: cs => if pyLowerChar c = pyLowerChar p then eatLitCI ps cs else none

/-- Word characters for `\b`: ASCII alphanumerics, `_`, and Cyrillic letters. -/
def pyIsWordChar (c : Char) : Bool :=
  ('a' ≤ c && c ≤ 'z') || ('A' ≤ c && c ≤ 'Z') || ('0' ≤ c && c ≤ '9') || c = '_' ||
  (0x410 ≤ c.toNat && c.toNat ≤ 0x44F) || c.toNat = 0x401 || c.toNat = 0x451

/-- The optional rep-range suffix `(?:\s*-\s*\d+)?` of the RPE/RIR pattern:
consume it if fully present, otherwise consume nothing. -/
def matchRange (s : List Char) : List Char :=
  match (s.span pyIsSpace).2 with
  | '-' :: t2 =>
    match ((t2.span pyIsSpace).2).span pyIsDigit with
    | ([], _) => s
    | (_ :: _, t4) => t4
  | _ => s

/-- `\(?\s*TAG\s*=?\s*\d+(?:\s*-\s*\d+)?\s*\)?` (case-insensitive `TAG`),
replacement empty. -/
def matchEffortTag (tag : List Char) : SubMatcher := fun _ s =>
  let s1 := match s with | '(' :: r => r | _ => s
  match eatLitCI tag ((s1.span pyIsSpace).2) with
  | none => none
  | some s3 =>
    let s4 := (s3.span pyIsSpace).2
    let s5 := match s4 with | '=' :: r => r | _ => s4
    match ((s5.span pyIsSpace).2).span pyIsDigit with
    | ([], _) => none
    | (_ :: _, s7) =>
      let s9 := ((matchRange s7).span pyIsSpace).2
      some ([], match s9 with | ')' :: r => r | _ => s9)

/-- `\bw₁\s+w₂\s+…\s+wₙ\b` (case-insensitive), replacement empty. -/
def phraseTail : List (List Char) → List Char → Option (List Char)
  | [], s => some s
  | [w], s => eatLitCI w s
  | w :: ws, s =>
    match eatLitCI w s with
    | none => none
    | some r =>
      match r.span pyIsSpace with
      | ([], _) => none
      | (_ :: _, r2) => phraseTail ws r2

/-- Word-boundary-delimited phrase matcher. -/
def matchPhrase (ws : List (List Char)) : SubMatcher := fun prev s =>
  if (match prev with | some c => pyIsWordChar c | none => false) then none
  else
    match phraseTail ws s with
    | none => none
    | some rest =>
      if (match rest with | c :: _ => pyIsWordChar c | [] => false) then none
      else some ([], rest)

/-- `\s*<br\s*/?>\s*` (case-insensitive), replaced by a newline. -/
def matchBrTag : SubMatcher := fun _ s =>
  match eatLitCI "<br".data ((s.span pyIsSpace).2) with
  | none => none
  | some s2 =>
    let s3 := (s2.span pyIsSpace).2
    let s4 := match s3 with | '/' :: r => r | _ => s3
    match s4 with
    | '>' :: s5 => some (['\n'], (s5.span pyIsSpace).2)
    | _ => none

/-- `</?p\s*/?>` (case-insensitive), replaced by a newline. -/
def matchPTag : SubMatcher := fun _ s =>
  match s with
  | '<' :: s1 =>
    let s2 := match s1 with | '/' :: r => r | _ => s1
    match eatLitCI "p".data s2 with
    | none => none
    | some s3 =>
      let s4 := (s3.span pyIsSpace).2
      let s5 := match s4 with | '/' :: r => r | _ => s4
      match s5 with
      | '>' :: s6 => some (['\n'], s6)
      | _ => none
  | _ => none

/-- `^\s*•\s+` with `MULTILINE`: anchored at the string start or right after
a newline of the original string; replaced by `"- "`. -/
def matchBullet : SubMatcher := fun prev s =>
  if (match prev with | none => true | some c => c = '\n') then
    match (s.span pyIsSpace).2 with
    | '•' :: s2 =>
      match s2.span pyIsSpace with
      | ([], _) => none
      | (_ :: _, s3) => some (['-', ' '], s3)
    | _ => none
  else none

/-- `(\d)\s*[xX\*]\s*(\d)`, replaced by `\1×\2`. -/
def matchTimes : SubMatcher := fun _ s =>
  match s with
  | c1 :: s1 =>
    if pyIsDigit c1 then
      match (s1.span pyIsSpace).2 with
      | op :: s3 =>
        if op = 'x' || op = 'X' || op = '*' then
          match (s3.span pyIsSpace).2 with
          | c2 :: s5 => if pyIsDigit c2 then some ([c1, '×', c2], s5) else none
          | [] => none
        else none
      | [] => none
    else none
  | [] => none

/-- `\(\s*\)`, replacement empty. -/
def matchEmptyParens : SubMatcher := fun _ s =>
  match s with
  | '(' :: s1 =>
    match (s1.span pyIsSpace).2 with
    | ')' :: s2 => some ([], s2)
    | _ => none
  | _ => none

/-- `,\s*,`, replaced by `", "`. -/
def matchDoubleComma : SubMatcher := fun _ s =>
  match s with
  | ',' :: s1 =>
    match (s1.span pyIsSpace).2 with
    | ',' :: s2 => some ([',', ' '], s2)
    | _ => none
  | _ => none

/-- Space or tab. -/
def isBlankChar (c : Char) : Bool := c = ' ' || c = '\t'

/-- `[ \t]{2,}`, replaced by a single space. -/
def matchMultiSpace : SubMatcher := fun _ s =>
  match s.span isBlankChar with
  | (_ :: _ :: _, s2) => some ([' '], s2)
  | _ => none

/-- `[ \t]+\n`, replaced by a newline. -/
def matchSpaceNl : SubMatcher := fun _ s =>
  match s.span isBlankChar with
  | (_ :: _, '\n' :: s2) => some (['\n'], s2)
  | _ => none

/-- `\n[ \t]+`, replaced by a newline. -/
def matchNlSpace : SubMatcher := fun _ s =>
  match s with
  | '\n' :: s1 =>
    match s1.span isBlankChar with
    | ([], _) => none
    | (_ :: _, s2) => some (['\n'], s2)
  | _ => none

/-- `\n{3,}`, replaced by exactly two newlines. -/
def matchNl3 : SubMatcher := fun _ s =>
  match s.span (fun c => c = '\n') with
  | (_ :: _ :: _ :: _, s2) => some (['\n', '\n'], s2)
  | _ => none

/-- The leftmost non-overlapping scan of `re.sub`.  The fuel bounds the
number of steps; every matcher consumes at least one character, so fuel
equal to the input length always suffices. -/
def scanSub (m : SubMatcher) : ℕ → Option Char → List Char → List Char
  | 0, _, s => s
  | _ + 1, _, [] => []
  | fuel + 1, prev, c :: cs =>
    match m prev (c :: cs) with
    | some (rep, rest) =>
      rep ++ scanSub m fuel (((c :: cs).take ((c :: cs).length - rest.length)).getLast?) rest
    | none => c :: scanSub m fuel (some c) cs

/-- One full `re.sub` pass over a string. -/
def runSub (m : SubMatcher) (s : List Char) : List Char :=
  scanSub m s.length none s

/-- The backtick character (code point 96). -/
def backtickChar : Char := Char.ofNat 96

/-- Remove the first occurrence of a backtick. -/
def dropFirstTick : List Char → List Char
  | [] => []
  | c :: cs => if c = backtickChar then cs else c :: dropFirstTick cs

/-- The pattern `` `(?=[^`]*$)`` removes exactly the last backtick of the
string (the lookahead succeeds precisely when no backtick follows). -/
def dropLastTick (s : List Char) : List Char := (dropFirstTick s.reverse).reverse

/-- `_strip_rpe(text)` from `app/agent.py`: the full sanitization pipeline,
one `re.sub` pass per source line, in source order, ending with the
hanging-backtick removal and `str.strip()`. -/
def _strip_rpe (text : String) : String :=
  let l1 := runSub (matchEffortTag "rpe".data) text.data
  let l2 := runSub (matchEffortTag "rir".data) l1
  let l3 := runSub (matchPhrase ["до".data, "отказа".data]) l2
  let l4 := runSub (matchPhrase ["почти".data, "до".data, "отказа".data]) l3
  let l5 := runSub matchBrTag l4
  let l6 := runSub matchPTag l5
  let l7 := runSub matchBullet l6
  let l8 := runSub matchTimes l7
  let l9 := runSub matchEmptyParens l8
  let l10 := runSub matchDoubleComma l9
  let l11 := runSub matchMultiSpace l10
  let l12 := runSub matchSpaceNl l11
  let l13 := runSub matchNlSpace l12
  let l14 := runSub matchNl3 l13
  String.mk (pyStrip (dropLastTick l14))

/-! ## Claim C1: sanitizer idempotence -/

/-- C1 (refuted): the sanitization pipeline is not idempotent.  The final
cleanup `` re.sub(r"`(?=[^`]*$)", "", out) `` — documented in the source as
removing *hanging single* backticks — in fact removes the string's last
backtick even when it closes a pair, so a second application strips yet
another backtick: on the one-character code span "`a`" one application
yields "`a" and a second yields "a". -/
theorem c1_strip_rpe_not_idempotent :
    _strip_rpe "`a`" = "`a" ∧
    _strip_rpe (_strip_rpe "`a`") = "a" ∧
    _strip_rpe (_strip_rpe "`a`") ≠ _strip_rpe "`a`" := by
  refine ⟨rfl, rfl, ?_⟩
  decide

/-! ## `bot/telegram_bot.py` — the message handler

`handle_message` is modelled as a pure function from the runtime state
(`user_states` entry), the loaded persisted record, and the stripped message
text, to the new runtime state, the in-memory record, whether
`save_user_data` ran, and an effect.  Branches whose body performs network
or file I/O (program generation, Q&A answering, file export) are cut at the
external call and marked with `Effect.sideEffect`; every state/record
mutation *before* such a call is modelled.  Reply texts that interpolate
current profile values are abbreviated to their fixed ask-again part — no
claim concerns the wording of replies. -/

/-- Digits to the integer they denote. -/
def digitsToInt (l : List Char) : ℤ :=
  l.foldl (fun a c => a * 10 + ((c.toNat - 48 : ℕ) : ℤ)) 0

/-- A non-empty all-digit run, as an integer. -/
def parseDigits (l : List Char) : Option ℤ :=
  if l ≠ [] ∧ l.all pyIsDigit then some (digitsToInt l) else none

/-- Python `int(text)`: optional sign around a digit run, surrounding
whitespace allowed. -/
def parseIntStr (s : String) : Option ℤ :=
  match pyStrip s.data with
  | [] => none
  | '-' :: rest => (parseDigits rest).map (fun n => -n)
  | '+' :: rest => parseDigits rest
  | l => parseDigits l

/-- Split a character list at its first dot, keeping both sides. -/
def splitAtDot : List Char → Option (List Char × List Char)
  | [] => none
  | '.' :: rest => some ([], rest)
  | c :: rest => (splitAtDot rest).map (fun p => (c :: p.1, p.2))

/-- Python `float(text)` for plain decimal notation `D+`, `D+.D*`, `D*.D+`
with an optional sign and surrounding whitespace. -/
def parseDecimalStr (s : String) : Option ℚ :=
  match pyStrip s.data with
  | [] => none
  | l =>
    let sl : Bool × List Char := match l with
      | '-' :: r => (true, r)
      | '+' :: r => (false, r)
      | r => (false, r)
    let q? : Option ℚ :=
      match splitAtDot sl.2 with
      | none => (parseDigits sl.2).map (fun n => (n : ℚ))
      | some (ip, fp) =>
        if ip.all pyIsDigit ∧ fp.all pyIsDigit ∧ (ip ≠ [] ∨ fp ≠ []) ∧ ¬ fp.contains '.' then
          some ((digitsToInt ip : ℚ) + (digitsToInt fp : ℚ) / (10 ^ fp.length))
        else none
    q?.map (fun q => if sl.1 then -q else q)

/-- Modelled from the spec: `validate_age` is imported from `app.storage` by
`bot/telegram_bot.py` but is not among the provided sources; the spec fixes
its contract — the answer must parse as a number and lie in the validated
range "age 10–100".  Returns the value on success, `none` on failure. -/
def validate_age (s : String) : Option ℤ :=
  (parseIntStr s).bind (fun n => if 10 ≤ n ∧ n ≤ 100 then some n else none)

/-- Modelled from the spec: `validate_height`, missing from `src/`, with the
spec's validated range "height 120–230". -/
def validate_height (s : String) : Option ℚ :=
  (parseDecimalStr s).bind (fun q => if 120 ≤ q ∧ q ≤ 230 then some q else none)

/-- Modelled from the spec: `validate_weight`, missing from `src/`, with the
spec's validated range "weight 35–300" (the bot's prompt allows decimals
such as `75.5`). -/
def validate_weight (s : String) : Option ℚ :=
  (parseDecimalStr s).bind (fun q => if 35 ≤ q ∧ q ≤ 300 then some q else none)

/-- Modelled from the spec: `validate_schedule`, missing from `src/`, with
the spec's validated range "frequency 1–7". -/
def validate_schedule (s : String) : Option ℤ :=
  (parseIntStr s).bind (fun n => if 1 ≤ n ∧ n ≤ 7 then some n else none)

/-- Modelled from the spec: `update_user_param`, missing from `src/`, sets
one `physical_data` field of the loaded record and persists it
("mutated field-by-field"). -/
def pdSet (p : PhysData) (k : String) (v : Val) : PhysData :=
  if k = "name" then { p with name := v }
  else if k = "gender" then { p with gender := v }
  else if k = "age" then { p with age := v }
  else if k = "height" then { p with height := v }
  else if k = "weight" then { p with weight := v }
  else if k = "goal" then { p with goal := v }
  else if k = "restrictions" then { p with restrictions := v }
  else if k = "level" then { p with level := v }
  else if k = "schedule" then { p with schedule := v }
  else if k = "target" then { p with target := v }
  else p

/-- `base.update(finished)` on the `physical_data` dict. -/
def pdUpdate (p : PhysData) (kvs : List (String × Val)) : PhysData :=
  kvs.foldl (fun acc kv => pdSet acc kv.1 kv.2) p

/-- Python list indexing with negative-index wrap-around; `none` models an
`IndexError`. -/
def pyIdx {α : Type} (l : List α) (i : ℤ) : Option α :=
  if 0 ≤ i then l.get? i.toNat
  else if 0 ≤ i + l.length then l.get? (i + l.length).toNat
  else none

/-- A `user_states` entry: `{"mode": …, "step": …, "data": …}`. -/
structure UState where
  mode : Option String
  step : ℤ
  data : List (String × Val)

/-- What the handler visibly does besides mutating state. -/
inductive Effect
  | reply (msg : String)
  | sideEffect (tag : String)
  | pyError

/-- The result of one `handle_message` call: the `user_states` entry
afterwards (`none` = popped/absent), the in-memory record, whether
`save_user_data` ran, and the effect. -/
structure HOut where
  state : Option UState
  record : StoredRecord
  saved : Bool
  effect : Effect

/-- `GOAL_MAPPING` from `bot/telegram_bot.py`. -/
def GOAL_MAPPING : List (String × String) :=
  [("🏃‍♂️ Похудеть", "похудение"),
   ("🏋️‍♂️ Набрать массу", "набор массы"),
   ("🧘 Поддерживать форму", "поддержание формы")]

/-- The `variation_map` of `handle_message`. -/
def variation_map : List (String × String) :=
  [("💪 Больше базовых",
    "Сделай акцент на базовые многосуставные упражнения (приседания, становая, жимы, подтягивания)."),
   ("🎯 Больше изоляции",
    "Добавь больше изолирующих упражнений для проработки отдельных мышечных групп."),
   ("🏋️ Акцент на силу",
    "Программа с акцентом на развитие силы: меньше повторений (4-6), больше отдыха, тяжелые веса."),
   ("⚡ Акцент на выносливость",
    "Программа с акцентом на выносливость: больше повторений (15-20), меньше отдыха, умеренные веса."),
   ("🎲 Случайная вариация",
    "Сделай максимально разнообразную и нестандартную программу, используй креативные упражнения.")]

/-- `_normalize_name(raw)`: strip, then at most 80 characters. -/
def _normalize_name (raw : String) : String := String.mk ((pyStrip raw.data).take 80)

/-- `_normalize_gender(text)` from `bot/telegram_bot.py`. -/
def _normalize_gender (t : String) : Option String :=
  if containsSub "жен" (pyLowerStr t) || containsSub "👩" (pyLowerStr t) then some "женский"
  else if containsSub "муж" (pyLowerStr t) || containsSub "👨" (pyLowerStr t) then some "мужской"
  else none

/-- The `questions` list of `handle_message` (field key, prompt). -/
def questions : List (String × String) :=
  [("age", "Сколько тебе лет?"),
   ("height", "Твой рост в сантиметрах?"),
   ("weight", "Твой текущий вес в килограммах?"),
   ("goal", "Желаемый вес в килограммах?"),
   ("restrictions", "Есть ли ограничения по здоровью или предпочтения в тренировках?"),
   ("schedule", "Сколько раз в неделю можешь посещать тренажёрный зал?")]

/-- Validation of the prior survey answer, dispatched on the field key as in
the `survey` branch; `none` is a validation failure, `some v` the stored
value (restrictions accept any text, mapping "нет"/"no"/"-" to `None`). -/
def surveyAnswer (prevKey : String) (t : String) : Option Val :=
  if prevKey = "age" then (validate_age t).map Val.vint
  else if prevKey = "height" then (validate_height t).map Val.vrat
  else if prevKey = "weight" then (validate_weight t).map Val.vrat
  else if prevKey = "goal" then (validate_weight t).map Val.vrat
  else if prevKey = "restrictions" then
    some (if pyLowerStr t = "нет" ∨ pyLowerStr t = "no" ∨ pyLowerStr t = "-" then Val.vnull
          else Val.vstr t)
  else if prevKey = "schedule" then (validate_schedule t).map Val.vint
  else some (Val.vstr t)

/-- The tail of the `survey` branch after validation: ask the next question
(steps ≤ 6) or move to `awaiting_level`. -/
def continueSurvey (st : UState) (rec : StoredRecord) (d : List (String × Val)) : HOut :=
  if st.step ≤ 6 then
    match pyIdx questions (st.step - 1) with
    | some q => ⟨some ⟨some "survey", st.step + 1, d⟩, rec, false, .reply q.2⟩
    | none => ⟨some st, rec, false, .pyError⟩
  else ⟨some ⟨some "awaiting_level", 0, d⟩, rec, false,
        .reply "Выбери свой уровень подготовки:"⟩

/-- The `survey` branch of `handle_message`: validate the prior step's
answer when `step > 1` (failure re-prompts and returns with nothing
changed), then continue the questionnaire. -/
def surveyStep (st : UState) (rec : StoredRecord) (t : String) : HOut :=
  if 1 < st.step then
    match pyIdx questions (st.step - 2) with
    | none => ⟨some st, rec, false, .pyError⟩
    | some qk =>
      match surveyAnswer qk.1 t with
      | none => ⟨some st, rec, false, .reply "❌ Некорректное значение.\n\nПопробуй ещё раз:"⟩
      | some v => continueSurvey st rec (dictInsert qk.1 v st.data)
  else continueSurvey st rec st.data

/-- The two level buttons (`LEVEL_CHOICES`). -/
def LEVEL_CHOICES : List String := ["🚀 Начинающий", "🔥 Опытный"]

/-- `handle_message` from `bot/telegram_bot.py`, branch for branch in source
order.  `ust` is the `user_states` entry, `rec` the loaded record, `raw` the
incoming message text (stripped on entry, as in the source). -/
def handleMessage (ust : Option UState) (rec : StoredRecord) (raw : String) : HOut :=
  let t := pyStripStr raw
  let st := ust.getD ⟨none, 0, []⟩
  let phys := rec.physical_data
  let completed := rec.physical_data_completed
  if t = "💾 Сохранить ответ" then ⟨ust, rec, false, .sideEffect "save_last_to_file"⟩
  else if t = "📑 Сохранённые ответы" then ⟨ust, rec, false, .sideEffect "show_saved_programs"⟩
  else if t = "📋 Моя анкета" then
    if ¬ completed then ⟨ust, rec, false, .reply "Сначала нужно заполнить анкету."⟩
    else ⟨ust, rec, false, .sideEffect "show_profile"⟩
  else if t = "⚙️ Изменить параметры" then
    if ¬ completed then ⟨ust, rec, false, .reply "Сначала нужно заполнить анкету."⟩
    else ⟨ust, rec, false, .reply "Выбери параметр для изменения ⬇️"⟩
  else if t = "◀️ Назад в меню" then ⟨none, rec, false, .reply "Главное меню ⬇️"⟩
  else if t = "🎯 Изменить цель" then
    if ¬ completed then ⟨ust, rec, false, .reply "Сначала нужно заполнить анкету."⟩
    else ⟨some ⟨some "changing_goal", 0, []⟩, rec, false,
          .reply "Выбери новую цель тренировок ⬇️"⟩
  else if t = "🆕 Другая программа" then ⟨ust, rec, false, .reply "Выбери стиль программы ⬇️"⟩
  else if (alookup t variation_map).isSome then
    ⟨ust, rec, false, .sideEffect "program_variation"⟩
  else if t = "🔁 Начать заново" then
    ⟨some ⟨some "awaiting_name", 0, []⟩,
     { rec with physical_data := defaultPhys, physical_data_completed := false,
                history := [], last_program := none, last_reply := none },
     true, .reply "Заполним анкету заново 📝 Как тебя зовут?"⟩
  else if ¬ completed ∧ st.mode = none then
    if ¬ valTruthy phys.name then
      ⟨some ⟨some "awaiting_name", 0, []⟩, rec, false, .reply "Как тебя зовут?"⟩
    else ⟨some ⟨some "awaiting_goal", 0, []⟩, rec, false,
          .reply "выбери свою цель тренировок ⬇️"⟩
  else if t = "❓ Задать вопрос AI-тренеру" then
    ⟨some ⟨some "qa", 0, []⟩, rec, false, .reply "Задай вопрос по тренировкам/питанию ✍🏼"⟩
  else if st.mode = some "qa" then ⟨ust, rec, false, .sideEffect "qa_answer"⟩
  else if st.mode = some "awaiting_name" then
    if t = "" then ⟨ust, rec, false, .reply "Напиши, пожалуйста, имя."⟩
    else
      ⟨some ⟨some "awaiting_goal", 0, []⟩,
       { rec with physical_data := { phys with name := .vstr (_normalize_name t) } },
       true, .reply "выбери свою цель тренировок ⬇️"⟩
  else if st.mode = some "awaiting_goal" then
    match alookup t GOAL_MAPPING with
    | some goal =>
      ⟨some ⟨some "awaiting_gender", 0, [("target", .vstr goal)]⟩, rec, false,
       .reply "Укажи свой пол:"⟩
    | none => ⟨ust, rec, false, .reply "Пожалуйста, выбери цель кнопкой ниже:"⟩
  else if t = "👤 Имя" then
    ⟨some ⟨some "editing_name", 0, []⟩, rec, false, .reply "Введи новое имя:"⟩
  else if t = "🔢 Возраст" then
    ⟨some ⟨some "editing_age", 0, []⟩, rec, false, .reply "Введи новый возраст (10-100 лет):"⟩
  else if t = "⚖️ Текущий вес" then
    ⟨some ⟨some "editing_weight", 0, []⟩, rec, false,
     .reply "Введи новый текущий вес в килограммах (например: 75 или 75.5):"⟩
  else if t = "🎯 Желаемый вес" then
    ⟨some ⟨some "editing_goal_weight", 0, []⟩, rec, false,
     .reply "Введи новый желаемый вес в килограммах (например: 70 или 70.5):"⟩
  else if t = "📈 Частота тренировок" then
    ⟨some ⟨some "editing_schedule", 0, []⟩, rec, false,
     .reply "Сколько раз в неделю сможешь посещать зал (1-7)?"⟩
  else if t = "⚠️ Ограничения / предпочтения" then
    ⟨some ⟨some "editing_restrictions", 0, []⟩, rec, false,
     .reply "Опиши новые ограничения по здоровью или предпочтения в тренировках (или напиши 'нет'):"⟩
  else if t = "🏋️ Уровень подготовки" then
    ⟨some ⟨some "editing_level", 0, []⟩, rec, false, .reply "Выбери новый уровень подготовки:"⟩
  else if st.mode = some "changing_goal" then
    match alookup t GOAL_MAPPING with
    | some goal =>
      ⟨none, { rec with physical_data := pdSet phys "target" (.vstr goal) }, true,
       .reply "✅ Цель успешно изменена."⟩
    | none => ⟨ust, rec, false, .reply "Пожалуйста, выбери цель кнопкой ниже:"⟩
  else if st.mode = some "editing_name" then
    if _normalize_name t = "" then
      ⟨ust, rec, false, .reply "❌ Имя не может быть пустым.\n\nПопробуй ещё раз:"⟩
    else
      ⟨none, { rec with physical_data := pdSet phys "name" (.vstr (_normalize_name t)) },
       true, .reply "✅ Имя успешно обновлено."⟩
  else if st.mode = some "editing_age" then
    match validate_age t with
    | none => ⟨ust, rec, false, .reply "❌ Некорректное значение.\n\nПопробуй ещё раз:"⟩
    | some v =>
      ⟨none, { rec with physical_data := pdSet phys "age" (.vint v) }, true,
       .reply "✅ Возраст успешно обновлён."⟩
  else if st.mode = some "editing_weight" then
    match validate_weight t with
    | none => ⟨ust, rec, false, .reply "❌ Некорректное значение.\n\nПопробуй ещё раз:"⟩
    | some v =>
      ⟨none, { rec with physical_data := pdSet phys "weight" (.vrat v) }, true,
       .reply "✅ Текущий вес успешно обновлён."⟩
  else if st.mode = some "editing_goal_weight" then
    match validate_weight t with
    | none => ⟨ust, rec, false, .reply "❌ Некорректное значение.\n\nПопробуй ещё раз:"⟩
    | some v =>
      ⟨none, { rec with physical_data := pdSet phys "goal" (.vrat v) }, true,
       .reply "✅ Желаемый вес успешно обновлён."⟩
  else if st.mode = some "editing_schedule" then
    match validate_schedule t with
    | none => ⟨ust, rec, false, .reply "❌ Некорректное значение.\n\nПопробуй ещё раз:"⟩
    | some v =>
      ⟨none, { rec with physical_data := pdSet phys "schedule" (.vint v) }, true,
       .reply "✅ Частота тренировок успешно обновлена."⟩
  else if st.mode = some "editing_restrictions" then
    let v : Val :=
      if pyLowerStr t = "нет" ∨ pyLowerStr t = "no" ∨ pyLowerStr t = "-" then .vnull
      else .vstr t
    ⟨none, { rec with physical_data := pdSet phys "restrictions" v }, true,
     .reply "✅ Ограничения / предпочтения успешно обновлены."⟩
  else if st.mode = some "editing_level" then
    if t ∉ LEVEL_CHOICES then
      ⟨ust, rec, false, .reply "Пожалуйста, выбери уровень кнопкой ниже:"⟩
    else
      let lv : Val :=
        .vstr (if containsSub "Опыт" t || containsSub "🔥" t then "опытный" else "начинающий")
      ⟨none, { rec with physical_data := pdSet phys "level" lv }, true,
       .reply "✅ Уровень подготовки успешно обновлён."⟩
  else if st.mode = some "awaiting_gender" then
    match _normalize_gender t with
    | none => ⟨ust, rec, false, .reply "Пожалуйста, выбери пол кнопкой ниже:"⟩
    | some g =>
      ⟨some ⟨some "survey", 2, dictInsert "gender" (.vstr g) st.data⟩, rec, false,
       .reply "Сколько тебе лет?"⟩
  else if st.mode = some "survey" then surveyStep st rec t
  else if st.mode = some "awaiting_level" then
    if t ∉ LEVEL_CHOICES then
      ⟨ust, rec, false, .reply "Пожалуйста, выбери уровень кнопкой ниже:"⟩
    else
      let lv : Val :=
        .vstr (if containsSub "Опыт" t || containsSub "🔥" t then "опытный" else "начинающий")
      let finished := dictInsert "level" lv st.data
      ⟨none,
       { rec with physical_data := pdUpdate phys finished, physical_data_completed := true },
       true, .sideEffect "generate_first_program"⟩
  else if ¬ completed then
    ⟨some ⟨some "awaiting_name", 0, []⟩, rec, false, .reply "Как тебя зовут?"⟩
  else ⟨ust, rec, false, .sideEffect "generate_with_wishes"⟩

/-- Every fixed button/menu text `handle_message` tests before reaching the
`survey` branch, in dispatch order. -/
def menuButtons : List String :=
  ["💾 Сохранить ответ", "📑 Сохранённые ответы", "📋 Моя анкета", "⚙️ Изменить параметры",
   "◀️ Назад в меню", "🎯 Изменить цель", "🆕 Другая программа",
   "💪 Больше базовых", "🎯 Больше изоляции", "🏋️ Акцент на силу", "⚡ Акцент на выносливость",
   "🎲 Случайная вариация", "🔁 Начать заново", "❓ Задать вопрос AI-тренеру",
   "👤 Имя", "🔢 Возраст", "⚖️ Текущий вес", "🎯 Желаемый вес", "📈 Частота тренировок",
   "⚠️ Ограничения / предпочтения", "🏋️ Уровень подготовки"]

/-- Does validation of the prior survey field fail on this input? -/
def surveyPrevInvalid (step : ℤ) (t : String) : Bool :=
  match pyIdx questions (step - 2) with
  | some qk => (surveyAnswer qk.1 t).isNone
  | none => false

/-- In survey mode, a message that is none of the fixed button texts is
dispatched to the `survey` branch. -/
theorem handleMessage_survey_dispatch (st : UState) (rec : StoredRecord) (raw : String)
    (hmode : st.mode = some "survey") (hbtn : pyStripStr raw ∉ menuButtons) :
    handleMessage (some st) rec raw = surveyStep st rec (pyStripStr raw) := by
  obtain ⟨m, stp, dt⟩ := st
  simp only at hmode
  subst hmode
  simp only [menuButtons, List.mem_cons, List.not_mem_nil, or_false, not_or] at hbtn
  obtain ⟨h1, h2, h3, h4, h5, h6, h7, h8, h9, h10, h11, h12, h13, h14, h15, h16, h17, h18,
    h19, h20, h21⟩ := hbtn
  simp only [handleMessage, Option.getD_some]
  rw [if_neg h1, if_neg h2, if_neg h3, if_neg h4, if_neg h5, if_neg h6, if_neg h7]
  rw [if_neg (show ¬ ((alookup (pyStripStr raw) variation_map).isSome = true) by
    simp [variation_map, alookup, Ne.symm h8, Ne.symm h9, Ne.symm h10, Ne.symm h11,
      Ne.symm h12])]
  rw [if_neg h13]
  rw [if_neg (show ¬ (¬ rec.physical_data_completed ∧
      (some "survey" : Option String) = none) by simp)]
  rw [if_neg h14]
  rw [if_neg (show ¬ ((some "survey" : Option String) = some "qa") by decide)]
  rw [if_neg (show ¬ ((some "survey" : Option String) = some "awaiting_name") by decide)]
  rw [if_neg (show ¬ ((some "survey" : Option String) = some "awaiting_goal") by decide)]
  rw [if_neg h15, if_neg h16, if_neg h17, if_neg h18, if_neg h19, if_neg h20, if_neg h21]
  rw [if_neg (show ¬ ((some "survey" : Option String) = some "changing_goal") by decide)]
  rw [if_neg (show ¬ ((some "survey" : Option String) = some "editing_name") by decide)]
  rw [if_neg (show ¬ ((some "survey" : Option String) = some "editing_age") by decide)]
  rw [if_neg (show ¬ ((some "survey" : Option String) = some "editing_weight") by decide)]
  rw [if_neg (show ¬ ((some "survey" : Option String) = some "editing_goal_weight") by decide)]
  rw [if_neg (show ¬ ((some "survey" : Option String) = some "editing_schedule") by decide)]
  rw [if_neg (show ¬ ((some "survey" : Option String) = some "editing_restrictions") by decide)]
  rw [if_neg (show ¬ ((some "survey" : Option String) = some "editing_level") by decide)]
  rw [if_neg (show ¬ ((some "survey" : Option String) = some "awaiting_gender") by decide)]
  simp

/-- A failed validation in the `survey` branch changes nothing: the state
entry, record and disk are left untouched and the user is re-prompted. -/
theorem surveyStep_invalid (st : UState) (rec : StoredRecord) (t : String)
    (h2 : 2 ≤ st.step) (h7 : st.step ≤ 7)
    (hinv : surveyPrevInvalid st.step t = true) :
    surveyStep st rec t =
      ⟨some st, rec, false, .reply "❌ Некорректное значение.\n\nПопробуй ещё раз:"⟩ := by
  obtain ⟨m, stp, dt⟩ := st
  simp only at h2 h7 hinv ⊢
  unfold surveyStep
  simp only
  rw [if_pos (show (1:ℤ) < stp by omega)]
  simp only [surveyPrevInvalid] at hinv
  interval_cases stp <;>
    first
    | (rw [show pyIdx questions ((2:ℤ) - 2) =
          some ("age", "Сколько тебе лет?") from rfl] at hinv ⊢
       simp only [Option.isNone_iff_eq_none] at hinv
       simp [hinv])
    | (rw [show pyIdx questions ((3:ℤ) - 2) =
          some ("height", "Твой рост в сантиметрах?") from rfl] at hinv ⊢
       simp only [Option.isNone_iff_eq_none] at hinv
       simp [hinv])
    | (rw [show pyIdx questions ((4:ℤ) - 2) =
          some ("weight", "Твой текущий вес в килограммах?") from rfl] at hinv ⊢
       simp only [Option.isNone_iff_eq_none] at hinv
       simp [hinv])
    | (rw [show pyIdx questions ((5:ℤ) - 2) =
          some ("goal", "Желаемый вес в килограммах?") from rfl] at hinv ⊢
       simp only [Option.isNone_iff_eq_none] at hinv
       simp [hinv])
    | (rw [show pyIdx questions ((6:ℤ) - 2) =
          some ("restrictions",
            "Есть ли ограничения по здоровью или предпочтения в тренировках?") from rfl] at hinv ⊢
       simp only [Option.isNone_iff_eq_none] at hinv
       simp [hinv])
    | (rw [show pyIdx questions ((7:ℤ) - 2) =
          some ("schedule", "Сколько раз в неделю можешь посещать тренажёрный зал?") from rfl]
            at hinv ⊢
       simp only [Option.isNone_iff_eq_none] at hinv
       simp [hinv])

/-- A mid-survey state: goal and gender collected, age question pending. -/
def c2state : UState :=
  ⟨some "survey", 2, [("target", .vstr "похудение"), ("gender", .vstr "мужской")]⟩

/-- The record loaded for that user (name captured, profile incomplete). -/
def c2record : StoredRecord :=
  { defaultRecord with physical_data := { defaultPhys with name := .vstr "Иван" } }

/-- Counterexample to C2: the fixed button text "👤 Имя" fails age
validation, yet mid-survey it is not re-prompted — the edit-parameter branch
pre-empts the survey and switches the session to `editing_name` (step and
collected answers discarded from the state entry), so the mode does not stay
"survey" as the claim requires for every invalid input. -/
theorem c2_counterexample :
    surveyPrevInvalid c2state.step "👤 Имя" = true ∧
    (handleMessage (some c2state) c2record "👤 Имя").state =
      some ⟨some "editing_name", 0, []⟩ ∧
    (some "editing_name" : Option String) ≠ c2state.mode := by
  refine ⟨by decide, rfl, by decide⟩

/-- C2 as amended: in survey mode, for every survey step and every input
that is not one of the bot's fixed button texts and whose validation for the
prior step's field fails, the handler re-prompts and changes nothing: the
`user_states` entry (mode, step and all collected answers) is returned
unchanged, the record is untouched, and no save occurs. -/
theorem c2_survey_invalid_no_change (st : UState) (rec : StoredRecord) (raw : String)
    (hmode : st.mode = some "survey") (h2 : 2 ≤ st.step) (h7 : st.step ≤ 7)
    (hbtn : pyStripStr raw ∉ menuButtons)
    (hinv : surveyPrevInvalid st.step (pyStripStr raw) = true) :
    (handleMessage (some st) rec raw).state = some st ∧
    (handleMessage (some st) rec raw).record = rec ∧
    (handleMessage (some st) rec raw).saved = false := by
  rw [handleMessage_survey_dispatch st rec raw hmode hbtn,
      surveyStep_invalid st rec _ h2 h7 hinv]
  exact ⟨rfl, rfl, rfl⟩

/-- Witness for C2's amended theorem: spec Scenario D — answering "abc" to
the age question re-prompts with nothing changed. -/
theorem c2_witness :
    (handleMessage (some c2state) c2record "abc").state = some c2state ∧
    (handleMessage (some c2state) c2record "abc").record = c2record ∧
    (handleMessage (some c2state) c2record "abc").saved = false :=
  c2_survey_invalid_no_change c2state c2record "abc" rfl (by decide) (by decide)
    (by decide) (by decide)
